import Mathlib

/-!
Gesture detector: a shallow embedding of `src/backend/gesture_detector.cpp`.

The class `GestureDetector` turns the contours of a skin-colour mask into gesture
labels (`detectGesture`, `detectMotionGesture`), resolves the two labels of a frame
into one, and debounces the result (`shouldSendGesture`) before printing it.

Modelling conventions.

* Gesture labels are `std::string` values in the source and `String` values here.
* `cv::Point` is a pair of `int`. The subtraction and `abs` of
  `detectMotionGesture` are 32-bit two's complement operations (`wrapInt32`,
  `absInt32`): a difference outside the `int` range wraps around.
* `double` quantities that the program only compares with constants or divides
  (areas, moments, defect depths) are exact rationals.
* A `chrono::steady_clock::time_point` is its tick count, an `Int`; the clock period
  is one nanosecond, so `duration_cast<milliseconds>` divides by `1000000`,
  truncating toward zero.
* Results of OpenCV calls, and the one floating-point comparison that goes through
  `sqrt` and `acos`, are supplied by a record `Lib` of functions.
-/

namespace GestureDetector

/-- The type `cv::Point`: integer pixel coordinates. -/
structure Point where
  x : Int
  y : Int
deriving DecidableEq, Repr

/-- The type `cv::Vec4i` as produced by `cv::convexityDefects`:
`(start_index, end_index, farthest_pt_index, fixpt_depth)`. -/
structure Vec4i where
  startIdx : Nat
  endIdx : Nat
  farIdx : Nat
  fixptDepth : Int
deriving DecidableEq, Repr

/-- The fields of `cv::Moments` read by `getCenterOfMass`. -/
structure Moments where
  m00 : ℚ
  m10 : ℚ
  m01 : ℚ
deriving DecidableEq

/-- What the program obtains from outside its own text: the OpenCV routines it calls
on a contour, and the outcome of the double-precision test `angle <= 90` of
`countFingers` (lines 83-90), as a function of the points `start`, `end`, `far`. -/
structure Lib where
  contourArea : List Point → ℚ
  moments : List Point → Moments
  convexHull : List Point → List Nat
  convexityDefects : List Point → List Nat → List Vec4i
  angleLe90 : Point → Point → Point → Bool

/-- Conversion `double → int` of a `cv::Point` constructor argument: truncation
toward zero. -/
def truncToInt (q : ℚ) : Int :=
  if 0 ≤ q then Int.floor q else Int.ceil q

/-- `GestureDetector::getCenterOfMass` (lines 53-57). -/
def getCenterOfMass (lib : Lib) (contour : List Point) : Point :=
  let m := lib.moments contour
  if m.m00 = 0 then ⟨0, 0⟩
  else ⟨truncToInt (m.m10 / m.m00), truncToInt (m.m01 / m.m00)⟩

/-- One iteration of the loop of `countFingers` (lines 74-93): the new value of
`fingerCount` after looking at `defect`. An index outside the contour, which
`cv::convexityDefects` never produces, reads as `Point(0, 0)`. -/
def countFingersStep (lib : Lib) (contour : List Point) (fingerCount : Int)
    (defect : Vec4i) : Int :=
  let start := contour.getD defect.startIdx ⟨0, 0⟩
  let endPt := contour.getD defect.endIdx ⟨0, 0⟩
  let far := contour.getD defect.farIdx ⟨0, 0⟩
  let depth : ℚ := (defect.fixptDepth : ℚ) / 256
  if depth > 20 then
    if lib.angleLe90 start endPt far = true ∧ depth > 30 then fingerCount + 1
    else fingerCount
  else fingerCount

/-- `GestureDetector::countFingers` (lines 59-98). -/
def countFingers (lib : Lib) (contour : List Point) : Int :=
  if contour.length < 10 then 0
  else
    let hull := lib.convexHull contour
    if hull.length < 3 then 0
    else
      let defects := lib.convexityDefects contour hull
      let fingerCount := defects.foldl (countFingersStep lib contour) 0
      min (fingerCount + 1) 5

/-- The `switch (fingers)` of `detectGesture` (lines 109-122). -/
def gestureOfFingers (fingers : Int) : String :=
  if fingers = 1 then "ZOOM_OUT"
  else if fingers = 2 then "ROTATE_RIGHT"
  else if fingers = 3 then "ROTATE_LEFT"
  else if fingers = 4 then "ROTATE_UP"
  else if fingers = 5 then "ZOOM_IN"
  else "NONE"

/-- `GestureDetector::detectGesture` (lines 100-123). The parameter `center` is
unused in the source as well. -/
def detectGesture (lib : Lib) (contour : List Point) (_center : Point) : String :=
  if contour.isEmpty then "NONE"
  else
    let area := lib.contourArea contour
    if area < 5000 then "NONE"
    else gestureOfFingers (countFingers lib contour)

/-- The value of a 32-bit `int` holding the mathematical result `z`: two's
complement wrap-around into the range from `-2^31` to `2^31 - 1`. -/
def wrapInt32 (z : Int) : Int :=
  (z + 2147483648) % 4294967296 - 2147483648

/-- The call `abs(d)` on an `int`: the absolute value as a 32-bit `int`, so that
`abs` of `-2^31` is `-2^31` again. -/
def absInt32 (d : Int) : Int :=
  wrapInt32 |d|

/-- `GestureDetector::detectMotionGesture` (lines 125-141); `dx` and `dy` are `int`
variables, their differences and absolute values are 32-bit operations. -/
def detectMotionGesture (currentCenter previousCenter : Point) : String :=
  if currentCenter = ⟨0, 0⟩ ∨ previousCenter = ⟨0, 0⟩ then "NONE"
  else
    let dx := wrapInt32 (currentCenter.x - previousCenter.x)
    let dy := wrapInt32 (currentCenter.y - previousCenter.y)
    let threshold : Int := 30
    if absInt32 dx > threshold ∨ absInt32 dy > threshold then
      if absInt32 dx > absInt32 dy then
        (if dx > 0 then "ROTATE_RIGHT" else "ROTATE_LEFT")
      else
        (if dy > 0 then "ROTATE_DOWN" else "ROTATE_UP")
    else "NONE"

/-- The motion mapping in the words of the specification (section 4.3):
`NONE` if either centroid is the sentinel; `NONE` if `|dx| ≤ 30` and `|dy| ≤ 30`;
else the horizontal pair when `|dx| > |dy|`, otherwise the vertical pair. -/
def motionReference (cur prev : Point) : String :=
  let dx := cur.x - prev.x
  let dy := cur.y - prev.y
  if cur = ⟨0, 0⟩ then "NONE"
  else if prev = ⟨0, 0⟩ then "NONE"
  else if |dx| ≤ 30 ∧ |dy| ≤ 30 then "NONE"
  else if |dx| > |dy| then
    (if dx > 0 then "ROTATE_RIGHT" else "ROTATE_LEFT")
  else
    (if dy > 0 then "ROTATE_DOWN" else "ROTATE_UP")

/-- Line 200 of `processFrame`:
`finalGesture = (motionGesture != "NONE") ? motionGesture : staticGesture`. -/
def finalGesture (motionGesture staticGesture : String) : String :=
  if motionGesture ≠ "NONE" then motionGesture else staticGesture

/-- The mutable members of the class that `shouldSendGesture` reads and writes
(lines 24-25). -/
structure Detector where
  lastGesture : String
  lastGestureTime : Int
deriving DecidableEq, Repr

/-- Ticks of `chrono::steady_clock` per millisecond (nanosecond period). -/
def ticksPerMs : Int := 1000000

/-- The constant `GESTURE_COOLDOWN_MS` (line 26). -/
def GESTURE_COOLDOWN_MS : Int := 500

/-- The call `chrono::duration_cast<chrono::milliseconds>(d).count()` on a
difference `d` of two time points: division truncating toward zero. -/
def durationCastMs (d : Int) : Int :=
  Int.tdiv d ticksPerMs

/-- State of a freshly constructed detector (lines 24 and 45): the member
initialiser `lastGesture = ""` and the clock reading `t0` taken by the constructor. -/
def initialDetector (t0 : Int) : Detector :=
  { lastGesture := "", lastGestureTime := t0 }

/-- `GestureDetector::shouldSendGesture` (lines 143-154); `now` is the value of
`chrono::steady_clock::now()` read at line 144. Returns the `bool` result and the
members after the call. -/
def shouldSendGesture (d : Detector) (now : Int) (gesture : String) : Bool × Detector :=
  let timeDiff := durationCastMs (now - d.lastGestureTime)
  if gesture ≠ d.lastGesture ∧ timeDiff > GESTURE_COOLDOWN_MS then
    (true, { lastGesture := gesture, lastGestureTime := now })
  else
    (false, d)

/-- Lines 203-206 of `processFrame`: the debounce step of one cycle. The left
operand of `&&` is evaluated first, so `shouldSendGesture` always runs; the line
printed on `cout`, if any, is the second component. -/
def sendGesture (d : Detector) (now : Int) (finalGesture : String) :
    Detector × Option String :=
  let r := shouldSendGesture d now finalGesture
  if r.1 = true ∧ finalGesture ≠ "NONE" then (r.2, some finalGesture)
  else (r.2, none)

/-- The debounce step iterated over the `(resolved label, clock reading)` pairs of
successive cycles: the detector members after the last cycle. -/
def debounceState (d : Detector) : List (String × Int) → Detector
  | [] => d
  | (g, now) :: rest => debounceState (sendGesture d now g).1 rest

/-- The debounce step iterated over successive cycles: what each cycle printed. -/
def debounceOutputs (d : Detector) : List (String × Int) → List (Option String)
  | [] => []
  | (g, now) :: rest =>
    (sendGesture d now g).2 :: debounceOutputs (sendGesture d now g).1 rest

/-- The emitted events of a run, each with the clock reading of its cycle. -/
def emittedEvents (d : Detector) : List (String × Int) → List (String × Int)
  | [] => []
  | (g, now) :: rest =>
    match (sendGesture d now g).2 with
    | some e => (e, now) :: emittedEvents (sendGesture d now g).1 rest
    | none => emittedEvents (sendGesture d now g).1 rest

/-- The seven labels the two classifiers can return. -/
def gestureLabels : List String :=
  ["NONE", "ZOOM_IN", "ZOOM_OUT", "ROTATE_LEFT", "ROTATE_RIGHT", "ROTATE_UP", "ROTATE_DOWN"]

/-- The six labels other than `NONE`. -/
def properGestures : List String :=
  ["ZOOM_IN", "ZOOM_OUT", "ROTATE_LEFT", "ROTATE_RIGHT", "ROTATE_UP", "ROTATE_DOWN"]

/-- The selection loop of `processFrame` (lines 181-187), started at index `i` with
the current values of `largestIdx` and `maxArea`; returns their final values. -/
def largestLoop (lib : Lib) : List (List Point) → Nat → Nat → ℚ → Nat × ℚ
  | [], _, largestIdx, maxArea => (largestIdx, maxArea)
  | c :: rest, i, largestIdx, maxArea =>
    let area := lib.contourArea c
    if area > maxArea then largestLoop lib rest (i + 1) i area
    else largestLoop lib rest (i + 1) largestIdx maxArea

/-- State kept between calls of `processFrame`: the detector members and the
function-local `static Point previousCenter` (line 157). -/
structure Pipeline where
  detector : Detector
  previousCenter : Point
deriving DecidableEq, Repr

/-- State before the first frame: `previousCenter(0, 0)` and a fresh detector. -/
def initialPipeline (t0 : Int) : Pipeline :=
  { detector := initialDetector t0, previousCenter := ⟨0, 0⟩ }

/-- `GestureDetector::processFrame` (lines 156-221) without the drawing calls.
`frameEmpty` is `frame.empty()` after the capture, `contours` is the output of
`findContours` on the denoised mask and `now` the clock reading of the cycle.
Returns the state after the call and the line printed on `cout`, if any. -/
def processFrame (lib : Lib) (p : Pipeline) (frameEmpty : Bool)
    (contours : List (List Point)) (now : Int) : Pipeline × Option String :=
  if frameEmpty then (p, none)
  else if contours.isEmpty then (p, none)
  else
    let sel := largestLoop lib contours 0 0 0
    let largestIdx := sel.1
    let maxArea := sel.2
    if maxArea > 5000 then
      let handContour := contours.getD largestIdx []
      let currentCenter := getCenterOfMass lib handContour
      let staticGesture := detectGesture lib handContour currentCenter
      let motionGesture := detectMotionGesture currentCenter p.previousCenter
      let final := finalGesture motionGesture staticGesture
      let r := sendGesture p.detector now final
      ({ detector := r.1, previousCenter := currentCenter }, r.2)
    else (p, none)

/-- A sample environment: every contour has area 6000 and centroid `(320, 240)`, a
hull of three vertices and four convexity defects of depth `8000 / 256 = 31.25`
whose angle test succeeds. -/
def sampleLib : Lib where
  contourArea := fun _ => 6000
  moments := fun _ => ⟨6000, 1920000, 1440000⟩
  convexHull := fun _ => [0, 3, 6]
  convexityDefects := fun _ _ =>
    [⟨0, 2, 1, 8000⟩, ⟨2, 4, 3, 8000⟩, ⟨4, 6, 5, 8000⟩, ⟨6, 8, 7, 8000⟩]
  angleLe90 := fun _ _ _ => true

/-- A sample contour of ten boundary points. -/
def sampleContour : List Point :=
  [⟨300, 100⟩, ⟨310, 200⟩, ⟨320, 100⟩, ⟨330, 200⟩, ⟨340, 100⟩,
   ⟨350, 200⟩, ⟨360, 100⟩, ⟨370, 200⟩, ⟨380, 100⟩, ⟨340, 400⟩]

/-- A sample run, times in ticks: NONE at 0 ms, ZOOM_IN at 600 ms and 700 ms,
ROTATE_LEFT at 1200 ms. -/
def sampleRun : List (String × Int) :=
  [("NONE", 0), ("ZOOM_IN", 600000000), ("ZOOM_IN", 700000000),
   ("ROTATE_LEFT", 1200000000)]

/-- A run in which the hand relaxes between two ZOOM_IN poses: ZOOM_IN at 1000 ms,
NONE at 2000 ms, ZOOM_IN at 3000 ms. -/
def relaxRun : List (String × Int) :=
  [("ZOOM_IN", 1000000000), ("NONE", 2000000000), ("ZOOM_IN", 3000000000)]

/-- A run in which ZOOM_IN is held through a suppressed ROTATE_LEFT and an early
NONE: ZOOM_IN at 1000 ms, ROTATE_LEFT at 1200 ms, NONE at 1400 ms, ZOOM_IN at
3000 ms. -/
def heldRun : List (String × Int) :=
  [("ZOOM_IN", 1000000000), ("ROTATE_LEFT", 1200000000), ("NONE", 1400000000),
   ("ZOOM_IN", 3000000000)]

/-- The scenario of the specification (section 8), times in ticks: NONE at 0 ms,
ZOOM_IN at 50 ms and at 520 ms, ROTATE_LEFT at 540 ms. -/
def scenarioRun : List (String × Int) :=
  [("NONE", 0), ("ZOOM_IN", 50000000), ("ZOOM_IN", 520000000),
   ("ROTATE_LEFT", 540000000)]

/-- A qualifying gap as the program filters it: a convexity defect whose depth
(fixed-point value / 256) exceeds 30 and whose test `angle <= 90` (lines 83-90)
succeeded. -/
def qualifyingGap (lib : Lib) (contour : List Point) (defect : Vec4i) : Bool :=
  decide ((defect.fixptDepth : ℚ) / 256 > 30) &&
    lib.angleLe90 (contour.getD defect.startIdx ⟨0, 0⟩)
      (contour.getD defect.endIdx ⟨0, 0⟩) (contour.getD defect.farIdx ⟨0, 0⟩)

/-- The number of qualifying gaps among the convexity defects of a contour. -/
def qualifyingGaps (lib : Lib) (contour : List Point) : Nat :=
  ((lib.convexityDefects contour (lib.convexHull contour)).filter
    (qualifyingGap lib contour)).length

/-- The loop body of `countFingers` with the outer test `depth > 20` dropped: a
defect is counted exactly when `angle <= 90` and `depth > 30`. -/
def countFingersStepUngated (lib : Lib) (contour : List Point) (fingerCount : Int)
    (defect : Vec4i) : Int :=
  let start := contour.getD defect.startIdx ⟨0, 0⟩
  let endPt := contour.getD defect.endIdx ⟨0, 0⟩
  let far := contour.getD defect.farIdx ⟨0, 0⟩
  let depth : ℚ := (defect.fixptDepth : ℚ) / 256
  if lib.angleLe90 start endPt far = true ∧ depth > 30 then fingerCount + 1
  else fingerCount

/-- The variant of `countFingers` without the outer test `depth > 20`. -/
def countFingersUngated (lib : Lib) (contour : List Point) : Int :=
  if contour.length < 10 then 0
  else
    let hull := lib.convexHull contour
    if hull.length < 3 then 0
    else
      let defects := lib.convexityDefects contour hull
      let fingerCount := defects.foldl (countFingersStepUngated lib contour) 0
      min (fingerCount + 1) 5

/-- A fist: the environment of `sampleLib` with no convexity defects at all. -/
def fistLib : Lib where
  contourArea := fun _ => 6000
  moments := fun _ => ⟨6000, 1920000, 1440000⟩
  convexHull := fun _ => [0, 3, 6]
  convexityDefects := fun _ _ => []
  angleLe90 := fun _ _ _ => true

/-- The sum of the cross products of consecutive points of a polyline. -/
def crossSum : List Point → Int
  | p :: q :: rest => p.x * q.y - q.x * p.y + crossSum (q :: rest)
  | _ => 0

/-- The area enclosed by a closed polygon, by the shoelace formula that
`cv::contourArea` evaluates (unoriented: the absolute value is taken). -/
def polygonArea (contour : List Point) : ℚ :=
  match contour with
  | [] => 0
  | p :: _ => |((crossSum (contour ++ [p]) : Int) : ℚ)| / 2

/-- The axis-parallel rectangle with corners `(x0, y0)` and `(x1, y1)` as a contour
of four points. -/
def rectangle (x0 y0 x1 y1 : Int) : List Point :=
  [⟨x0, y0⟩, ⟨x1, y0⟩, ⟨x1, y1⟩, ⟨x0, y1⟩]

/-- An environment that measures areas by the shoelace formula; the moments are
those of the rectangle `(100, 100)-(200, 150)`, the other entries those of
`sampleLib`. -/
def polygonLib : Lib where
  contourArea := polygonArea
  moments := fun _ => ⟨5000, 750000, 625000⟩
  convexHull := fun _ => [0, 3, 6]
  convexityDefects := fun _ _ =>
    [⟨0, 2, 1, 8000⟩, ⟨2, 4, 3, 8000⟩, ⟨4, 6, 5, 8000⟩, ⟨6, 8, 7, 8000⟩]
  angleLe90 := fun _ _ _ => true

/-- An environment in which every contour has area exactly 5000 and centroid
`(320, 240)`; the other entries are those of `sampleLib`. -/
def boundaryLib : Lib where
  contourArea := fun _ => 5000
  moments := fun _ => ⟨5000, 1600000, 1200000⟩
  convexHull := fun _ => [0, 3, 6]
  convexityDefects := fun _ _ =>
    [⟨0, 2, 1, 8000⟩, ⟨2, 4, 3, 8000⟩, ⟨4, 6, 5, 8000⟩, ⟨6, 8, 7, 8000⟩]
  angleLe90 := fun _ _ _ => true

/-- The triangle `(0, 0), (1, 0), (0, 1)` at the origin. -/
def originTriangle : List Point :=
  [⟨0, 0⟩, ⟨1, 0⟩, ⟨0, 1⟩]

/-- An environment reporting the moments of `originTriangle`: area `1/2` and first
moments `1/6`, that is centroid `(1/3, 1/3)`. -/
def originLib : Lib where
  contourArea := polygonArea
  moments := fun _ => ⟨1 / 2, 1 / 6, 1 / 6⟩
  convexHull := fun _ => [0, 1, 2]
  convexityDefects := fun _ _ => []
  angleLe90 := fun _ _ _ => true

/-- Three contours for the selection loop: a square of area 100 and two rectangles
of area 5000 and 5000. -/
def threeContours : List (List Point) :=
  [rectangle 0 0 10 10, rectangle 100 100 200 150, rectangle 300 300 350 400]

/-- The characterisation of the `switch` used below: the five mapped counts. -/
theorem gestureOfFingers_mapped :
    gestureOfFingers 1 = "ZOOM_OUT" ∧ gestureOfFingers 2 = "ROTATE_RIGHT" ∧
    gestureOfFingers 3 = "ROTATE_LEFT" ∧ gestureOfFingers 4 = "ROTATE_UP" ∧
    gestureOfFingers 5 = "ZOOM_IN" := by
  refine ⟨?_, ?_, ?_, ?_, ?_⟩ <;> simp [gestureOfFingers]

/-- Every finger count outside `1..5` falls to the `default` case of the `switch`. -/
theorem gestureOfFingers_default (n : Int) (h : n < 1 ∨ 5 < n) :
    gestureOfFingers n = "NONE" := by
  have h1 : n ≠ 1 := by omega
  have h2 : n ≠ 2 := by omega
  have h3 : n ≠ 3 := by omega
  have h4 : n ≠ 4 := by omega
  have h5 : n ≠ 5 := by omega
  simp [gestureOfFingers, h1, h2, h3, h4, h5]

/-- C1: for a non-empty contour of area at least 5000, `detectGesture` returns the
`switch` applied to the finger count of the contour; the `switch` sends 1, 2, 3, 4, 5
to ZOOM_OUT, ROTATE_RIGHT, ROTATE_LEFT, ROTATE_UP, ZOOM_IN and every other count
(0, negative, above 5) to NONE. -/
theorem detectGesture_static_mapping (lib : Lib) (contour : List Point) (center : Point)
    (hne : contour ≠ []) (harea : 5000 ≤ lib.contourArea contour) :
    (countFingers lib contour = 1 → detectGesture lib contour center = "ZOOM_OUT") ∧
    (countFingers lib contour = 2 → detectGesture lib contour center = "ROTATE_RIGHT") ∧
    (countFingers lib contour = 3 → detectGesture lib contour center = "ROTATE_LEFT") ∧
    (countFingers lib contour = 4 → detectGesture lib contour center = "ROTATE_UP") ∧
    (countFingers lib contour = 5 → detectGesture lib contour center = "ZOOM_IN") ∧
    (countFingers lib contour < 1 ∨ 5 < countFingers lib contour →
      detectGesture lib contour center = "NONE") ∧
    detectGesture lib contour center = gestureOfFingers (countFingers lib contour) ∧
    (∀ n : Int, n < 1 ∨ 5 < n → gestureOfFingers n = "NONE") := by
  have hemp : contour.isEmpty = false := by
    cases contour with
    | nil => exact absurd rfl hne
    | cons a l => rfl
  have hlt : ¬ lib.contourArea contour < 5000 := not_lt.mpr harea
  have hd : detectGesture lib contour center = gestureOfFingers (countFingers lib contour) := by
    simp [detectGesture, hemp, hlt]
  obtain ⟨m1, m2, m3, m4, m5⟩ := gestureOfFingers_mapped
  refine ⟨?_, ?_, ?_, ?_, ?_, ?_, hd, gestureOfFingers_default⟩
  · intro h; rw [hd, h, m1]
  · intro h; rw [hd, h, m2]
  · intro h; rw [hd, h, m3]
  · intro h; rw [hd, h, m4]
  · intro h; rw [hd, h, m5]
  · intro h; rw [hd]; exact gestureOfFingers_default _ h

/-- A value inside the `int` range is stored unchanged. -/
theorem wrapInt32_of_range (z : Int) (hlo : -2147483648 ≤ z) (hhi : z < 2147483648) :
    wrapInt32 z = z := by
  unfold wrapInt32
  omega

/-- Away from `-2^31` the 32-bit `abs` is the absolute value. -/
theorem absInt32_of_range (z : Int) (hlo : -2147483648 < z) (hhi : z < 2147483648) :
    absInt32 z = |z| := by
  unfold absInt32
  apply wrapInt32_of_range
  · have := abs_nonneg z
    omega
  · rcases abs_cases z with ⟨h, _⟩ | ⟨h, _⟩ <;> omega

/-- Without overflow `detectMotionGesture` is the source text read over the
integers. -/
theorem detectMotionGesture_of_range (cur prev : Point)
    (hx : -2147483648 < cur.x - prev.x ∧ cur.x - prev.x < 2147483648)
    (hy : -2147483648 < cur.y - prev.y ∧ cur.y - prev.y < 2147483648) :
    detectMotionGesture cur prev =
      if cur = ⟨0, 0⟩ ∨ prev = ⟨0, 0⟩ then "NONE"
      else if |cur.x - prev.x| > 30 ∨ |cur.y - prev.y| > 30 then
        (if |cur.x - prev.x| > |cur.y - prev.y| then
          (if cur.x - prev.x > 0 then "ROTATE_RIGHT" else "ROTATE_LEFT")
        else
          (if cur.y - prev.y > 0 then "ROTATE_DOWN" else "ROTATE_UP"))
      else "NONE" := by
  unfold detectMotionGesture
  dsimp only
  rw [wrapInt32_of_range _ (le_of_lt hx.1) hx.2, wrapInt32_of_range _ (le_of_lt hy.1) hy.2,
    absInt32_of_range _ hx.1 hx.2, absInt32_of_range _ hy.1 hy.2]

/-- C2, as stated, fails: between the non-sentinel centroids `(2000000000, 100)` and
`(-2000000000, 100)` the displacement `dx = 4000000000` does not fit an `int`; the
stored difference is `-294967296` and the result is ROTATE_LEFT, where the reference
mapping gives ROTATE_RIGHT. -/
theorem motion_overflow_counterexample :
    wrapInt32 ((2000000000 : Int) - (-2000000000)) = -294967296 ∧
    detectMotionGesture ⟨2000000000, 100⟩ ⟨-2000000000, 100⟩ = "ROTATE_LEFT" ∧
    motionReference ⟨2000000000, 100⟩ ⟨-2000000000, 100⟩ = "ROTATE_RIGHT" := by
  decide

/-- C2 (amended): for all centroids whose coordinate differences `dx` and `dy` are
representable as 32-bit `int` with representable absolute value
(`-2^31 < dx, dy < 2^31`), `detectMotionGesture` equals the reference mapping of the
specification. -/
theorem detectMotionGesture_eq_reference (cur prev : Point)
    (hx : -2147483648 < cur.x - prev.x ∧ cur.x - prev.x < 2147483648)
    (hy : -2147483648 < cur.y - prev.y ∧ cur.y - prev.y < 2147483648) :
    detectMotionGesture cur prev = motionReference cur prev := by
  rw [detectMotionGesture_of_range cur prev hx hy]
  unfold motionReference
  by_cases hc : cur = ⟨0, 0⟩
  · simp [hc]
  by_cases hp : prev = ⟨0, 0⟩
  · simp [hp]
  by_cases hs : |cur.x - prev.x| ≤ 30 ∧ |cur.y - prev.y| ≤ 30
  · have hn : ¬ (|cur.x - prev.x| > 30 ∨ |cur.y - prev.y| > 30) := by
      rintro (h | h)
      · exact absurd hs.1 (not_le.mpr h)
      · exact absurd hs.2 (not_le.mpr h)
    simp only [hc, hp, hs, hn, or_self, and_self, if_true, if_false]
  · have hy : |cur.x - prev.x| > 30 ∨ |cur.y - prev.y| > 30 := by
      by_contra hcon
      push_neg at hcon
      exact hs hcon
    simp only [hc, hp, hs, hy, or_self, if_true, if_false]

/-- Witness for `detectMotionGesture_eq_reference`: a move of 60 pixels to the left
inside the frame. -/
theorem detectMotionGesture_eq_reference_witness :
    detectMotionGesture ⟨300, 200⟩ ⟨360, 210⟩ = motionReference ⟨300, 200⟩ ⟨360, 210⟩ ∧
    motionReference ⟨300, 200⟩ ⟨360, 210⟩ = "ROTATE_LEFT" :=
  ⟨detectMotionGesture_eq_reference ⟨300, 200⟩ ⟨360, 210⟩ (by decide) (by decide),
   by decide⟩

/-- C3, as stated, fails: at the tie `dx = dy = 50` between the non-sentinel centroids
`(100, 90)` and `(50, 40)` the result is ROTATE_DOWN, not ROTATE_RIGHT. -/
theorem tie_horizontal_counterexample :
    (⟨100, 90⟩ : Point) ≠ ⟨0, 0⟩ ∧ (⟨50, 40⟩ : Point) ≠ ⟨0, 0⟩ ∧
    |(100 : Int) - 50| = |(90 : Int) - 40| ∧ |(100 : Int) - 50| > 30 ∧
    (100 : Int) - 50 > 0 ∧
    detectMotionGesture ⟨100, 90⟩ ⟨50, 40⟩ = "ROTATE_DOWN" ∧
    detectMotionGesture ⟨100, 90⟩ ⟨50, 40⟩ ≠ "ROTATE_RIGHT" := by
  decide

/-- C3 (amended): for non-sentinel centroids whose coordinate differences do not
overflow 32-bit `int` (`-2^31 < dx, dy < 2^31`) and form a tie `|dx| = |dy|` with
`|dx| > 30`, `detectMotionGesture` takes the vertical branch: ROTATE_DOWN when
`dy > 0` and ROTATE_UP otherwise. -/
theorem tie_resolves_vertical (cur prev : Point)
    (hc : cur ≠ ⟨0, 0⟩) (hp : prev ≠ ⟨0, 0⟩)
    (hx : -2147483648 < cur.x - prev.x ∧ cur.x - prev.x < 2147483648)
    (hy : -2147483648 < cur.y - prev.y ∧ cur.y - prev.y < 2147483648)
    (htie : |cur.x - prev.x| = |cur.y - prev.y|) (hbig : |cur.x - prev.x| > 30) :
    detectMotionGesture cur prev =
      if cur.y - prev.y > 0 then "ROTATE_DOWN" else "ROTATE_UP" := by
  have hnot : ¬ |cur.x - prev.x| > |cur.y - prev.y| := by
    rw [htie]; exact lt_irrefl _
  rw [detectMotionGesture_of_range cur prev hx hy]
  simp only [hc, hp, hbig, hnot, or_self, true_or, if_true, if_false]

/-- Witness for `tie_resolves_vertical`: the tie `dx = -40, dy = -40`. -/
theorem tie_resolves_vertical_witness :
    detectMotionGesture ⟨10, 20⟩ ⟨50, 60⟩ = "ROTATE_UP" :=
  tie_resolves_vertical ⟨10, 20⟩ ⟨50, 60⟩ (by decide) (by decide) (by decide)
    (by decide) (by decide) (by decide)

/-- C4: the label resolved at line 200 is the motion label whenever that is not
NONE, whatever the static label, and the static label whenever the motion label is
NONE. -/
theorem finalGesture_motion_priority (staticLabel motionLabel : String) :
    (motionLabel ≠ "NONE" → finalGesture motionLabel staticLabel = motionLabel) ∧
    (motionLabel = "NONE" → finalGesture motionLabel staticLabel = staticLabel) := by
  constructor
  · intro h
    simp [finalGesture, h]
  · intro h
    simp [finalGesture, h]

/-- Witness for `finalGesture_motion_priority`: a motion label overrides ZOOM_IN, and
ZOOM_IN survives a NONE motion label. -/
theorem finalGesture_motion_priority_witness :
    finalGesture "ROTATE_LEFT" "ZOOM_IN" = "ROTATE_LEFT" ∧
    finalGesture "NONE" "ZOOM_IN" = "ZOOM_IN" :=
  ⟨(finalGesture_motion_priority "ZOOM_IN" "ROTATE_LEFT").1 (by decide),
   (finalGesture_motion_priority "ZOOM_IN" "NONE").2 rfl⟩

/-- Witness for `detectGesture_static_mapping`: the sample contour has four
qualifying defects, hence five fingers, and is classified as ZOOM_IN. -/
theorem detectGesture_static_mapping_witness :
    detectGesture sampleLib sampleContour ⟨320, 240⟩ = "ZOOM_IN" :=
  (detectGesture_static_mapping sampleLib sampleContour ⟨320, 240⟩ (by decide)
    (by norm_num [sampleLib])).2.2.2.2.1
    (by simp [countFingers, sampleLib, sampleContour, countFingersStep]; norm_num)

/-! ## The debounce step -/

/-- The truncated millisecond count exceeds the cooldown exactly from 501 ms on. -/
theorem durationCastMs_gt_cooldown (d : Int) :
    durationCastMs d > GESTURE_COOLDOWN_MS ↔ 501 * ticksPerMs ≤ d := by
  unfold durationCastMs GESTURE_COOLDOWN_MS ticksPerMs
  by_cases h : 0 ≤ d
  · rw [Int.tdiv_eq_ediv h (by decide)]
    omega
  · have hneg : 0 ≤ -d := by omega
    have h1 : (-d).tdiv 1000000 = -(d.tdiv 1000000) := Int.neg_tdiv d 1000000
    have h2 : 0 ≤ (-d).tdiv 1000000 := Int.tdiv_nonneg hneg (by decide)
    omega

/-- When `shouldSendGesture` returns `true`. -/
theorem shouldSendGesture_true_iff (d : Detector) (now : Int) (g : String) :
    (shouldSendGesture d now g).1 = true ↔
      g ≠ d.lastGesture ∧ durationCastMs (now - d.lastGestureTime) > GESTURE_COOLDOWN_MS := by
  unfold shouldSendGesture
  dsimp only
  by_cases h : g ≠ d.lastGesture ∧
      durationCastMs (now - d.lastGestureTime) > GESTURE_COOLDOWN_MS
  · rw [if_pos h]
    exact ⟨fun _ => h, fun _ => rfl⟩
  · rw [if_neg h]
    exact ⟨fun hf => absurd hf Bool.false_ne_true, fun hc => absurd hc h⟩

/-- The members after an accepting call of `shouldSendGesture`. -/
theorem shouldSendGesture_state_of_true (d : Detector) (now : Int) (g : String)
    (h : (shouldSendGesture d now g).1 = true) :
    (shouldSendGesture d now g).2 = { lastGesture := g, lastGestureTime := now } := by
  have hc := (shouldSendGesture_true_iff d now g).mp h
  unfold shouldSendGesture
  dsimp only
  rw [if_pos hc]

/-- The members after a rejecting call of `shouldSendGesture`. -/
theorem shouldSendGesture_state_of_false (d : Detector) (now : Int) (g : String)
    (h : (shouldSendGesture d now g).1 = false) :
    (shouldSendGesture d now g).2 = d := by
  have hc : ¬ (g ≠ d.lastGesture ∧
      durationCastMs (now - d.lastGestureTime) > GESTURE_COOLDOWN_MS) := by
    intro hcon
    have := (shouldSendGesture_true_iff d now g).mpr hcon
    rw [h] at this
    exact Bool.false_ne_true this
  unfold shouldSendGesture
  dsimp only
  rw [if_neg hc]

/-- The detector members after the debounce step are those left by
`shouldSendGesture`. -/
theorem sendGesture_state (d : Detector) (now : Int) (g : String) :
    (sendGesture d now g).1 = (shouldSendGesture d now g).2 := by
  unfold sendGesture
  dsimp only
  split_ifs <;> rfl

/-- When the debounce step prints a line, and which. -/
theorem sendGesture_some_iff (d : Detector) (now : Int) (g e : String) :
    (sendGesture d now g).2 = some e ↔
      e = g ∧ g ≠ "NONE" ∧ g ≠ d.lastGesture ∧
        durationCastMs (now - d.lastGestureTime) > GESTURE_COOLDOWN_MS := by
  unfold sendGesture
  dsimp only
  by_cases h : (shouldSendGesture d now g).1 = true ∧ g ≠ "NONE"
  · have hc := (shouldSendGesture_true_iff d now g).mp h.1
    rw [if_pos h]
    constructor
    · intro he
      exact ⟨(Option.some.inj he).symm, h.2, hc.1, hc.2⟩
    · intro he
      rw [he.1]
  · rw [if_neg h]
    constructor
    · intro he
      cases he
    · intro he
      exact absurd ⟨(shouldSendGesture_true_iff d now g).mpr ⟨he.2.2.1, he.2.2.2⟩, he.2.1⟩ h

/-- The detector members after a step that printed a line. -/
theorem sendGesture_state_of_some (d : Detector) (now : Int) (g e : String)
    (h : (sendGesture d now g).2 = some e) :
    (sendGesture d now g).1 = { lastGesture := g, lastGestureTime := now } := by
  have hc := (sendGesture_some_iff d now g e).mp h
  rw [sendGesture_state]
  exact shouldSendGesture_state_of_true d now g
    ((shouldSendGesture_true_iff d now g).mpr ⟨hc.2.2.1, hc.2.2.2⟩)

/-- Labels returned by `detectGesture` are among the seven gesture labels. -/
theorem detectGesture_mem_gestureLabels (lib : Lib) (contour : List Point)
    (center : Point) : detectGesture lib contour center ∈ gestureLabels := by
  unfold detectGesture gestureOfFingers gestureLabels
  dsimp only
  split_ifs <;> simp

/-- Labels returned by `detectMotionGesture` are among the seven gesture labels. -/
theorem detectMotionGesture_mem_gestureLabels (cur prev : Point) :
    detectMotionGesture cur prev ∈ gestureLabels := by
  unfold detectMotionGesture gestureLabels
  dsimp only
  split_ifs <;> simp

/-- The resolved label of a cycle is among the seven gesture labels. -/
theorem finalGesture_mem_gestureLabels (lib : Lib) (contour : List Point)
    (center cur prev : Point) :
    finalGesture (detectMotionGesture cur prev) (detectGesture lib contour center)
      ∈ gestureLabels := by
  unfold finalGesture
  split_ifs
  · exact detectMotionGesture_mem_gestureLabels cur prev
  · exact detectGesture_mem_gestureLabels lib contour center

/-- A gesture label other than NONE is one of the six proper gestures. -/
theorem mem_properGestures_of_ne_none (g : String) (hg : g ∈ gestureLabels)
    (hne : g ≠ "NONE") : g ∈ properGestures := by
  simp only [gestureLabels, List.mem_cons, List.mem_singleton, List.not_mem_nil,
    or_false] at hg
  simp only [properGestures, List.mem_cons, List.mem_singleton, List.not_mem_nil,
    or_false]
  rcases hg with h | h
  · exact absurd h hne
  · exact h

/-- C5: whatever the detector members, the clock reading and the resolved label, a
line printed by the debounce step (`shouldSendGesture` followed by the NONE filter)
is the resolved label itself and is never NONE; for a resolved label among the seven
gesture labels it is one of the six labels other than NONE. -/
theorem sendGesture_never_emits_none (d : Detector) (now : Int) (L e : String)
    (hemit : (sendGesture d now L).2 = some e) :
    e = L ∧ e ≠ "NONE" ∧ (L ∈ gestureLabels → e ∈ properGestures) := by
  have hc := (sendGesture_some_iff d now L e).mp hemit
  have hne : e ≠ "NONE" := by
    rw [hc.1]; exact hc.2.1
  refine ⟨hc.1, hne, ?_⟩
  intro hL
  rw [← hc.1] at hL
  exact mem_properGestures_of_ne_none e hL hne

/-- Witness for `sendGesture_never_emits_none`: ZOOM_IN fed 600 ms after
construction is printed. -/
theorem sendGesture_never_emits_none_witness :
    (sendGesture (initialDetector 0) 600000000 "ZOOM_IN").2 = some "ZOOM_IN" ∧
    "ZOOM_IN" = "ZOOM_IN" ∧ "ZOOM_IN" ≠ "NONE" ∧
    ("ZOOM_IN" ∈ gestureLabels → "ZOOM_IN" ∈ properGestures) :=
  ⟨by decide,
   sendGesture_never_emits_none (initialDetector 0) 600000000 "ZOOM_IN" "ZOOM_IN"
     (by decide)⟩

/-- A line printed by `processFrame` is one of the six labels other than NONE. -/
theorem processFrame_output_proper (lib : Lib) (p : Pipeline) (frameEmpty : Bool)
    (contours : List (List Point)) (now : Int) (e : String)
    (h : (processFrame lib p frameEmpty contours now).2 = some e) :
    e ∈ properGestures := by
  unfold processFrame at h
  dsimp only at h
  split_ifs at h
  have hc := (sendGesture_some_iff _ _ _ _).mp h
  have hmem := finalGesture_mem_gestureLabels lib
    (contours.getD (largestLoop lib contours 0 0 0).1 [])
    (getCenterOfMass lib (contours.getD (largestLoop lib contours 0 0 0).1 []))
    (getCenterOfMass lib (contours.getD (largestLoop lib contours 0 0 0).1 []))
    p.previousCenter
  rw [← hc.1] at hmem
  exact mem_properGestures_of_ne_none e hmem (by rw [hc.1]; exact hc.2.1)

/-- A cycle fed a label other than NONE that prints nothing was rejected by
`shouldSendGesture`, so the detector members are the old ones. -/
theorem sendGesture_eq_of_silent (d : Detector) (now : Int) (L : String)
    (hL : L ≠ "NONE") (hno : (sendGesture d now L).2 = none) :
    (sendGesture d now L).1 = d := by
  have hfalse : (shouldSendGesture d now L).1 = false := by
    by_contra hcon
    have htrue : (shouldSendGesture d now L).1 = true := by
      cases hb : (shouldSendGesture d now L).1
      · exact absurd hb hcon
      · rfl
    have hc := (shouldSendGesture_true_iff d now L).mp htrue
    have hsome := (sendGesture_some_iff d now L L).mpr ⟨rfl, hL, hc.1, hc.2⟩
    rw [hno] at hsome
    cases hsome
  rw [sendGesture_state, shouldSendGesture_state_of_false d now L hfalse]

/-- C10, as stated, fails at exactly 500 ms: ZOOM_IN is emitted at 1000 ms and the
state stores that emission; ROTATE_LEFT fed at 1500 ms is neither NONE nor the stored
label and comes 500 ms later, yet nothing is printed and the state is unchanged. -/
theorem cooldown_boundary_counterexample :
    sendGesture (initialDetector 0) 1000000000 "ZOOM_IN"
      = (⟨"ZOOM_IN", 1000000000⟩, some "ZOOM_IN") ∧
    "ROTATE_LEFT" ≠ "NONE" ∧ "ROTATE_LEFT" ≠ "ZOOM_IN" ∧
    (1500000000 : Int) - 1000000000 ≥ GESTURE_COOLDOWN_MS * ticksPerMs ∧
    sendGesture ⟨"ZOOM_IN", 1000000000⟩ 1500000000 "ROTATE_LEFT"
      = (⟨"ZOOM_IN", 1000000000⟩, none) := by
  decide

/-- C10 (amended): for every detector state, every label other than NONE and other
than the stored label, and every clock reading at least 501 ms after the stored time
(the truncated millisecond count must exceed 500), the debounce step prints the label
and stores the label and the clock reading. -/
theorem sendGesture_emits_after_cooldown (d : Detector) (now : Int) (L : String)
    (hL : L ≠ "NONE") (hnew : L ≠ d.lastGesture)
    (helapsed : 501 * ticksPerMs ≤ now - d.lastGestureTime) :
    sendGesture d now L = ({ lastGesture := L, lastGestureTime := now }, some L) := by
  have hgt := (durationCastMs_gt_cooldown (now - d.lastGestureTime)).mpr helapsed
  have hsome := (sendGesture_some_iff d now L L).mpr ⟨rfl, hL, hnew, hgt⟩
  have hst := sendGesture_state_of_some d now L L hsome
  exact Prod.ext hst hsome

/-- Witness for `sendGesture_emits_after_cooldown`: ROTATE_LEFT fed 501 ms after an
emission of ZOOM_IN. -/
theorem sendGesture_emits_after_cooldown_witness :
    sendGesture ⟨"ZOOM_IN", 1000000000⟩ 1501000000 "ROTATE_LEFT"
      = (⟨"ROTATE_LEFT", 1501000000⟩, some "ROTATE_LEFT") :=
  sendGesture_emits_after_cooldown ⟨"ZOOM_IN", 1000000000⟩ 1501000000 "ROTATE_LEFT"
    (by decide) (by decide) (by decide)

/-! ## Runs of the debouncer -/

/-- The first event emitted from a state comes more than the cooldown after the time
stored in that state. -/
theorem emittedEvents_head_gap (inputs : List (String × Int)) :
    ∀ (d : Detector) (e : String × Int), (emittedEvents d inputs).head? = some e →
      501 * ticksPerMs ≤ e.2 - d.lastGestureTime := by
  induction inputs with
  | nil =>
    intro d e h
    simp [emittedEvents] at h
  | cons a rest ih =>
    intro d e h
    obtain ⟨g, now⟩ := a
    unfold emittedEvents at h
    cases hout : (sendGesture d now g).2 with
    | some e' =>
      rw [hout] at h
      simp only [List.head?_cons, Option.some.injEq] at h
      have hc := (sendGesture_some_iff d now g e').mp hout
      have hgap := (durationCastMs_gt_cooldown _).mp hc.2.2.2
      rw [← h]
      exact hgap
    | none =>
      rw [hout] at h
      simp only at h
      have hrec := ih _ e h
      rw [sendGesture_state] at hrec
      cases hb : (shouldSendGesture d now g).1 with
      | false =>
        rw [shouldSendGesture_state_of_false d now g hb] at hrec
        exact hrec
      | true =>
        rw [shouldSendGesture_state_of_true d now g hb] at hrec
        have hc := (shouldSendGesture_true_iff d now g).mp hb
        have hgap := (durationCastMs_gt_cooldown _).mp hc.2
        simp only at hrec
        unfold ticksPerMs at hrec hgap ⊢
        omega

/-- Consecutive events emitted from any state are at least the cooldown apart. -/
theorem emittedEvents_chain (inputs : List (String × Int)) :
    ∀ d : Detector, List.Chain'
      (fun e1 e2 : String × Int => GESTURE_COOLDOWN_MS * ticksPerMs ≤ e2.2 - e1.2)
      (emittedEvents d inputs) := by
  induction inputs with
  | nil =>
    intro d
    simp [emittedEvents]
  | cons a rest ih =>
    intro d
    obtain ⟨g, now⟩ := a
    unfold emittedEvents
    cases hout : (sendGesture d now g).2 with
    | some e' =>
      simp only
      rw [List.chain'_cons']
      refine ⟨?_, ih _⟩
      intro y hy
      have hgap := emittedEvents_head_gap rest _ y (Option.mem_def.mp hy)
      rw [sendGesture_state_of_some d now g e' hout] at hgap
      simp only at hgap
      unfold GESTURE_COOLDOWN_MS
      unfold ticksPerMs at hgap ⊢
      omega
    | none =>
      simp only
      exact ih _

/-- C6: for every sequence of (resolved label, clock reading) pairs with
non-decreasing clock readings fed to the debouncer from its initial state, any two
consecutive emitted events are at least the cooldown of 500 ms apart. -/
theorem emitted_events_cooldown_apart (t0 : Int) (inputs : List (String × Int))
    (_hmono : List.Chain' (fun a b : String × Int => a.2 ≤ b.2) inputs) :
    List.Chain'
      (fun e1 e2 : String × Int => GESTURE_COOLDOWN_MS * ticksPerMs ≤ e2.2 - e1.2)
      (emittedEvents (initialDetector t0) inputs) :=
  emittedEvents_chain inputs (initialDetector t0)

/-- Witness for `emitted_events_cooldown_apart`: the sample run emits ZOOM_IN at
600 ms and ROTATE_LEFT at 1200 ms. -/
theorem emitted_events_cooldown_apart_witness :
    emittedEvents (initialDetector 0) sampleRun
      = [("ZOOM_IN", 600000000), ("ROTATE_LEFT", 1200000000)] ∧
    List.Chain'
      (fun e1 e2 : String × Int => GESTURE_COOLDOWN_MS * ticksPerMs ≤ e2.2 - e1.2)
      (emittedEvents (initialDetector 0) sampleRun) :=
  ⟨by decide, emitted_events_cooldown_apart 0 sampleRun (by simp [sampleRun])⟩

/-- The state reached after a concatenation of runs. -/
theorem debounceState_append (xs ys : List (String × Int)) :
    ∀ d : Detector, debounceState d (xs ++ ys) = debounceState (debounceState d xs) ys := by
  induction xs with
  | nil => intro d; rfl
  | cons a rest ih =>
    intro d
    obtain ⟨g, now⟩ := a
    rw [List.cons_append, debounceState, debounceState]
    exact ih _

/-- The outputs of a concatenation of runs. -/
theorem debounceOutputs_append (xs ys : List (String × Int)) :
    ∀ d : Detector, debounceOutputs d (xs ++ ys)
      = debounceOutputs d xs ++ debounceOutputs (debounceState d xs) ys := by
  induction xs with
  | nil => intro d; rfl
  | cons a rest ih =>
    intro d
    obtain ⟨g, now⟩ := a
    rw [List.cons_append, debounceOutputs, debounceOutputs, debounceState, ih,
      List.cons_append]

/-- One output per cycle. -/
theorem debounceOutputs_length (xs : List (String × Int)) :
    ∀ d : Detector, (debounceOutputs d xs).length = xs.length := by
  induction xs with
  | nil => intro d; rfl
  | cons a rest ih =>
    intro d
    obtain ⟨g, now⟩ := a
    simp only [debounceOutputs, List.length_cons]
    rw [ih]

/-- Reading a run of the shape `pre ++ a :: (mid ++ b :: post)` against an output list
of the same shape: the outputs of cycle `a`, of the cycles `mid` and of cycle `b`. -/
theorem debounceOutputs_split (d0 : Detector) (pre mid post : List (String × Int))
    (a b : String × Int) (oPre oMid oPost : List (Option String)) (oa ob : Option String)
    (hpre : oPre.length = pre.length) (hmid : oMid.length = mid.length)
    (h : debounceOutputs d0 (pre ++ a :: (mid ++ b :: post))
      = oPre ++ oa :: (oMid ++ ob :: oPost)) :
    (sendGesture (debounceState d0 pre) a.2 a.1).2 = oa ∧
    debounceOutputs (sendGesture (debounceState d0 pre) a.2 a.1).1 mid = oMid ∧
    (sendGesture (debounceState (sendGesture (debounceState d0 pre) a.2 a.1).1 mid)
      b.2 b.1).2 = ob := by
  obtain ⟨ga, ta⟩ := a
  obtain ⟨gb, tb⟩ := b
  rw [debounceOutputs_append] at h
  have h1 := List.append_inj h (by rw [debounceOutputs_length, hpre])
  have h2 := h1.2
  simp only [debounceOutputs, List.cons.injEq] at h2
  obtain ⟨hoa, hrest⟩ := h2
  rw [debounceOutputs_append] at hrest
  have h3 := List.append_inj hrest (by rw [debounceOutputs_length, hmid])
  have h4 := h3.2
  simp only [debounceOutputs, List.cons.injEq] at h4
  exact ⟨hoa, h3.1, h4.1⟩

/-- While every label fed equals the stored label, the state does not move. -/
theorem debounceState_same_label (mid : List (String × Int)) :
    ∀ d : Detector, (∀ x ∈ mid, x.1 = d.lastGesture) → debounceState d mid = d := by
  induction mid with
  | nil => intro d _; rfl
  | cons a rest ih =>
    intro d hall
    obtain ⟨g, now⟩ := a
    have hg : g = d.lastGesture := hall (g, now) (List.mem_cons_self _ _)
    have hfalse : (shouldSendGesture d now g).1 = false := by
      cases hb : (shouldSendGesture d now g).1 with
      | false => rfl
      | true => exact absurd hg ((shouldSendGesture_true_iff d now g).mp hb).1
    have hstep : (sendGesture d now g).1 = d := by
      rw [sendGesture_state, shouldSendGesture_state_of_false d now g hfalse]
    simp only [debounceState]
    rw [hstep]
    exact ih d (fun x hx => hall x (List.mem_cons_of_mem _ hx))

/-- C7: in a run of the debouncer from its initial state, if cycle `a` emits `L`,
the cycles `mid` after it emit nothing and the next cycle `b` emits `L` again, then
some label fed in `mid`, strictly between the two emissions, differs from `L`. -/
theorem repeated_label_needs_intervening (t0 : Int) (pre mid post : List (String × Int))
    (a b : String × Int) (L : String) (oPre oPost : List (Option String))
    (hpre : oPre.length = pre.length)
    (hrun : debounceOutputs (initialDetector t0) (pre ++ a :: (mid ++ b :: post))
      = oPre ++ some L :: (List.replicate mid.length none ++ some L :: oPost)) :
    ∃ x ∈ mid, x.1 ≠ L := by
  obtain ⟨ha, _, hb⟩ := debounceOutputs_split (initialDetector t0) pre mid post a b
    oPre (List.replicate mid.length none) oPost (some L) (some L) hpre
    (List.length_replicate _ _) hrun
  have hca := (sendGesture_some_iff _ _ _ _).mp ha
  have hsa := sendGesture_state_of_some _ _ _ _ ha
  by_contra hcon
  push_neg at hcon
  have hstay := debounceState_same_label mid
    (sendGesture (debounceState (initialDetector t0) pre) a.2 a.1).1
    (by
      intro x hx
      rw [hsa]
      simp only
      rw [hcon x hx, hca.1])
  rw [hstay] at hb
  have hcb := (sendGesture_some_iff _ _ _ _).mp hb
  rw [hsa] at hcb
  simp only at hcb
  exact hcb.2.2.1 (by rw [← hcb.1, hca.1])

/-- Witness for `repeated_label_needs_intervening`: in the relax run the two
emissions of ZOOM_IN are separated by the label NONE. -/
theorem repeated_label_needs_intervening_witness :
    debounceOutputs (initialDetector 0) relaxRun
      = [some "ZOOM_IN", none, some "ZOOM_IN"] ∧
    ∃ x ∈ [(("NONE", 2000000000) : String × Int)], x.1 ≠ "ZOOM_IN" :=
  ⟨by decide,
   repeated_label_needs_intervening 0 [] [("NONE", 2000000000)] []
     ("ZOOM_IN", 1000000000) ("ZOOM_IN", 3000000000) "ZOOM_IN" [] [] rfl (by decide)⟩

/-- C8, as stated, fails: in the relax run ZOOM_IN is emitted at 1000 ms, NONE fed at
2000 ms prints nothing, and ZOOM_IN fed at 3000 ms, equal to the most recently
emitted label, is emitted again. -/
theorem held_label_reemitted_counterexample :
    relaxRun.map Prod.fst = ["ZOOM_IN", "NONE", "ZOOM_IN"] ∧
    debounceOutputs (initialDetector 0) relaxRun
      = [some "ZOOM_IN", none, some "ZOOM_IN"] := by
  decide

/-- A NONE label fed within the cooldown of the stored time leaves the state alone. -/
theorem sendGesture_eq_of_early (d : Detector) (now : Int) (g : String)
    (hearly : durationCastMs (now - d.lastGestureTime) ≤ GESTURE_COOLDOWN_MS) :
    (sendGesture d now g).1 = d := by
  have hfalse : (shouldSendGesture d now g).1 = false := by
    cases hb : (shouldSendGesture d now g).1 with
    | false => rfl
    | true =>
      exact absurd ((shouldSendGesture_true_iff d now g).mp hb).2 (not_lt.mpr hearly)
  rw [sendGesture_state, shouldSendGesture_state_of_false d now g hfalse]

/-- Through cycles that print nothing and whose NONE labels all arrive within the
cooldown of the stored time, the state does not move. -/
theorem debounceState_silent (mid : List (String × Int)) :
    ∀ d : Detector, debounceOutputs d mid = List.replicate mid.length none →
      (∀ x ∈ mid, x.1 = "NONE" →
        durationCastMs (x.2 - d.lastGestureTime) ≤ GESTURE_COOLDOWN_MS) →
      debounceState d mid = d := by
  induction mid with
  | nil => intro d _ _; rfl
  | cons a rest ih =>
    intro d hout hnone
    obtain ⟨g, now⟩ := a
    rw [debounceOutputs, List.length_cons, List.replicate_succ, List.cons.injEq] at hout
    have hstep : (sendGesture d now g).1 = d := by
      by_cases hg : g = "NONE"
      · exact sendGesture_eq_of_early d now g (hnone (g, now) (List.mem_cons_self _ _) hg)
      · exact sendGesture_eq_of_silent d now g hg hout.1
    rw [debounceState, hstep]
    rw [hstep] at hout
    exact ih d hout.2 (fun x hx => hnone x (List.mem_cons_of_mem _ hx))

/-- Reading a run of the shape `pre ++ a :: mid` against an output list of the same
shape: the output of cycle `a` and the outputs of the cycles `mid`. -/
theorem debounceOutputs_split_head (d0 : Detector) (pre mid : List (String × Int))
    (a : String × Int) (oPre oMid : List (Option String)) (oa : Option String)
    (hpre : oPre.length = pre.length)
    (h : debounceOutputs d0 (pre ++ a :: mid) = oPre ++ oa :: oMid) :
    (sendGesture (debounceState d0 pre) a.2 a.1).2 = oa ∧
    debounceOutputs (sendGesture (debounceState d0 pre) a.2 a.1).1 mid = oMid := by
  obtain ⟨ga, ta⟩ := a
  rw [debounceOutputs_append] at h
  have h1 := List.append_inj h (by rw [debounceOutputs_length, hpre])
  have h2 := h1.2
  rw [debounceOutputs, List.cons.injEq] at h2
  exact h2

/-- C8 (amended): in a run of the debouncer from its initial state, let cycle `a`
emit `L` and let the cycles `mid` after it emit nothing, every NONE label among them
arriving no more than 500 whole milliseconds after that emission. Then the label `L`
fed in the next cycle, at any time `T`, is not emitted. -/
theorem held_label_not_reemitted (t0 : Int) (pre mid : List (String × Int))
    (a : String × Int) (L : String) (T : Int) (oPre : List (Option String))
    (hpre : oPre.length = pre.length)
    (hrun : debounceOutputs (initialDetector t0) (pre ++ a :: mid)
      = oPre ++ some L :: List.replicate mid.length none)
    (hnone : ∀ x ∈ mid, x.1 = "NONE" →
      durationCastMs (x.2 - a.2) ≤ GESTURE_COOLDOWN_MS) :
    debounceOutputs (initialDetector t0) (pre ++ a :: (mid ++ [(L, T)]))
      = oPre ++ some L :: (List.replicate mid.length none ++ [none]) := by
  obtain ⟨ha, hmid⟩ := debounceOutputs_split_head (initialDetector t0) pre mid a
    oPre (List.replicate mid.length none) (some L) hpre hrun
  have hca := (sendGesture_some_iff _ _ _ _).mp ha
  have hsa := sendGesture_state_of_some _ _ _ _ ha
  have hstay := debounceState_silent mid
    (sendGesture (debounceState (initialDetector t0) pre) a.2 a.1).1 hmid
    (by
      intro x hx hx0
      rw [hsa]
      exact hnone x hx hx0)
  have hlast : (sendGesture (debounceState (initialDetector t0) (pre ++ a :: mid)) T L).2
      = none := by
    cases hout : (sendGesture (debounceState (initialDetector t0) (pre ++ a :: mid)) T L).2 with
    | none => rfl
    | some e =>
      have hcb := (sendGesture_some_iff _ _ _ _).mp hout
      have hst : debounceState (initialDetector t0) (pre ++ a :: mid)
          = { lastGesture := a.1, lastGestureTime := a.2 } := by
        rw [debounceState_append]
        obtain ⟨ga, ta⟩ := a
        rw [debounceState]
        rw [hstay]
        exact hsa
      rw [hst] at hcb
      exact absurd hca.1 hcb.2.2.1
  have hsplit : pre ++ a :: (mid ++ [(L, T)]) = (pre ++ a :: mid) ++ [(L, T)] := by
    simp
  rw [hsplit, debounceOutputs_append, hrun, debounceOutputs, debounceOutputs, hlast]
  simp

/-- Witness for `held_label_not_reemitted`: in the held run ZOOM_IN is emitted at
1000 ms, ROTATE_LEFT at 1200 ms and NONE at 1400 ms print nothing, and ZOOM_IN fed
at 3000 ms is not emitted again. -/
theorem held_label_not_reemitted_witness :
    debounceOutputs (initialDetector 0) heldRun = [some "ZOOM_IN", none, none, none] :=
  held_label_not_reemitted 0 [] [("ROTATE_LEFT", 1200000000), ("NONE", 1400000000)]
    ("ZOOM_IN", 1000000000) "ZOOM_IN" 3000000000 [] rfl (by decide) (by decide)

/-! ## Finger counting -/

/-- One loop iteration adds one exactly for a qualifying gap. -/
theorem countFingersStep_eq (lib : Lib) (contour : List Point) (fc : Int) (d : Vec4i) :
    countFingersStep lib contour fc d
      = if qualifyingGap lib contour d = true then fc + 1 else fc := by
  unfold countFingersStep qualifyingGap
  dsimp only
  by_cases h30 : (d.fixptDepth : ℚ) / 256 > 30
  · have h20 : (d.fixptDepth : ℚ) / 256 > 20 := by linarith
    by_cases ha : lib.angleLe90 (contour.getD d.startIdx ⟨0, 0⟩)
        (contour.getD d.endIdx ⟨0, 0⟩) (contour.getD d.farIdx ⟨0, 0⟩) = true
    · simp [h30, h20, ha]
    · simp [h30, h20, ha]
  · by_cases h20 : (d.fixptDepth : ℚ) / 256 > 20
    · simp [h30, h20]
    · simp [h30, h20]

/-- The loop of `countFingers` adds the number of qualifying gaps to its start value. -/
theorem countFingers_foldl (lib : Lib) (contour : List Point) (defects : List Vec4i) :
    ∀ fc : Int, defects.foldl (countFingersStep lib contour) fc
      = fc + ((defects.filter (qualifyingGap lib contour)).length : Int) := by
  induction defects with
  | nil => intro fc; simp
  | cons d rest ih =>
    intro fc
    rw [List.foldl_cons, ih, countFingersStep_eq]
    by_cases hq : qualifyingGap lib contour d = true
    · rw [if_pos hq, List.filter_cons_of_pos hq, List.length_cons]
      push_cast
      ring
    · rw [if_neg hq, List.filter_cons_of_neg hq]

/-- The value of `countFingers` past its two guards. -/
theorem countFingers_eq_of_guards (lib : Lib) (contour : List Point)
    (hlen : 10 ≤ contour.length) (hhull : 3 ≤ (lib.convexHull contour).length) :
    countFingers lib contour = min ((qualifyingGaps lib contour : Int) + 1) 5 := by
  unfold countFingers qualifyingGaps
  dsimp only
  rw [if_neg (by omega), if_neg (by omega), countFingers_foldl]
  simp

/-- C12: for every contour (any number of points, any hull, any list of convexity
defects with any depths and angle tests) `countFingers` returns an integer in the
range from 0 to 5. -/
theorem countFingers_range (lib : Lib) (contour : List Point) :
    0 ≤ countFingers lib contour ∧ countFingers lib contour ≤ 5 := by
  by_cases hlen : contour.length < 10
  · simp [countFingers, hlen]
  by_cases hhull : (lib.convexHull contour).length < 3
  · simp [countFingers, hlen, hhull]
  rw [countFingers_eq_of_guards lib contour (by omega) (by omega)]
  have hnn : (0 : Int) ≤ (qualifyingGaps lib contour : Int) := Int.natCast_nonneg _
  constructor
  · exact le_min (by omega) (by decide)
  · exact min_le_right _ _

/-- Past its two guards `detectGesture` is the `switch` on the finger count. -/
theorem detectGesture_eq_switch (lib : Lib) (contour : List Point) (center : Point)
    (hne : contour ≠ []) (harea : 5000 ≤ lib.contourArea contour) :
    detectGesture lib contour center = gestureOfFingers (countFingers lib contour) := by
  have hemp : contour.isEmpty = false := by
    cases contour with
    | nil => exact absurd rfl hne
    | cons a l => rfl
  have hlt : ¬ lib.contourArea contour < 5000 := not_lt.mpr harea
  simp [detectGesture, hemp, hlt]

/-- A contour of at least ten points is not empty. -/
theorem ne_nil_of_ten_le (contour : List Point) (hlen : 10 ≤ contour.length) :
    contour ≠ [] := by
  intro h
  rw [h] at hlen
  simp at hlen

/-- The `switch` never yields NONE on a count between 1 and 5. -/
theorem gestureOfFingers_ne_none (n : Int) (h1 : 1 ≤ n) (h5 : n ≤ 5) :
    gestureOfFingers n ≠ "NONE" := by
  interval_cases n <;> simp [gestureOfFingers]

/-- The two loop bodies agree: a depth above 30 is above 20. -/
theorem countFingersStep_eq_ungated (lib : Lib) (contour : List Point) :
    countFingersStep lib contour = countFingersStepUngated lib contour := by
  funext fc d
  unfold countFingersStep countFingersStepUngated
  dsimp only
  by_cases h20 : (d.fixptDepth : ℚ) / 256 > 20
  · rw [if_pos h20]
  · rw [if_neg h20]
    have h30 : ¬ (d.fixptDepth : ℚ) / 256 > 30 := by
      intro h
      exact h20 (by linarith)
    rw [if_neg (fun hc => h30 hc.2)]

/-- C19: the outer test `depth > 20` of `countFingers` is redundant: on every contour
and every list of defects `countFingers` returns the same value as the variant that
drops that test and counts a defect exactly when `angle <= 90` and `depth > 30`. -/
theorem countFingers_outer_gate_redundant (lib : Lib) (contour : List Point) :
    countFingers lib contour = countFingersUngated lib contour := by
  unfold countFingers countFingersUngated
  rw [countFingersStep_eq_ungated]

/-- C20: for a contour of at least 10 points whose convex hull has at least 3
points, `countFingers` returns at least 1; hence for area at least 5000
`detectGesture` does not return NONE, and a contour without qualifying gaps (a fist)
is classified as ZOOM_OUT. -/
theorem countFingers_pos_of_guards (lib : Lib) (contour : List Point) (center : Point)
    (hlen : 10 ≤ contour.length) (hhull : 3 ≤ (lib.convexHull contour).length) :
    1 ≤ countFingers lib contour ∧
    (5000 ≤ lib.contourArea contour → detectGesture lib contour center ≠ "NONE") ∧
    (5000 ≤ lib.contourArea contour → qualifyingGaps lib contour = 0 →
      detectGesture lib contour center = "ZOOM_OUT") := by
  have hcf := countFingers_eq_of_guards lib contour hlen hhull
  have hnn : (0 : Int) ≤ (qualifyingGaps lib contour : Int) := Int.natCast_nonneg _
  have h1 : 1 ≤ countFingers lib contour := by
    rw [hcf]
    exact le_min (by omega) (by decide)
  have h5 : countFingers lib contour ≤ 5 := by
    rw [hcf]
    exact min_le_right _ _
  refine ⟨h1, ?_, ?_⟩
  · intro harea
    rw [detectGesture_eq_switch lib contour center (ne_nil_of_ten_le contour hlen) harea]
    exact gestureOfFingers_ne_none _ h1 h5
  · intro harea hg
    rw [detectGesture_eq_switch lib contour center (ne_nil_of_ten_le contour hlen) harea,
      hcf, hg]
    decide

/-- Witness for `countFingers_pos_of_guards`: a fist of area 6000 has one finger and
is classified as ZOOM_OUT. -/
theorem countFingers_pos_of_guards_witness :
    1 ≤ countFingers fistLib sampleContour ∧
    detectGesture fistLib sampleContour ⟨320, 240⟩ ≠ "NONE" ∧
    detectGesture fistLib sampleContour ⟨320, 240⟩ = "ZOOM_OUT" :=
  have h := countFingers_pos_of_guards fistLib sampleContour ⟨320, 240⟩
    (by decide) (by decide)
  ⟨h.1, h.2.1 (by norm_num [fistLib]),
   h.2.2 (by norm_num [fistLib]) (by simp [qualifyingGaps, fistLib])⟩

/-! ## Cycles of `processFrame` -/

/-- C17: whatever the pipeline state, a cycle whose mask yields no contour prints
nothing and leaves `lastGesture`, `lastGestureTime` and the previous centroid
unchanged. -/
theorem processFrame_no_contours (lib : Lib) (p : Pipeline) (frameEmpty : Bool)
    (now : Int) :
    (processFrame lib p frameEmpty [] now).2 = none ∧
    (processFrame lib p frameEmpty [] now).1.detector.lastGesture
      = p.detector.lastGesture ∧
    (processFrame lib p frameEmpty [] now).1.detector.lastGestureTime
      = p.detector.lastGestureTime ∧
    (processFrame lib p frameEmpty [] now).1.previousCenter = p.previousCenter := by
  have h : processFrame lib p frameEmpty [] now = (p, none) := by
    unfold processFrame
    cases frameEmpty <;> simp
  rw [h]
  exact ⟨rfl, rfl, rfl, rfl⟩

/-! ## The centroid -/

/-- The conversion to `int` yields 0 exactly on the open interval from -1 to 1. -/
theorem truncToInt_eq_zero_iff (q : ℚ) : truncToInt q = 0 ↔ |q| < 1 := by
  unfold truncToInt
  rw [abs_lt]
  by_cases h : 0 ≤ q
  · rw [if_pos h, Int.floor_eq_iff]
    constructor
    · rintro ⟨_, h2⟩
      constructor
      · linarith
      · simpa using h2
    · rintro ⟨_, h2⟩
      constructor
      · simpa using h
      · simpa using h2
  · rw [if_neg h, Int.ceil_eq_iff]
    have hneg : q < 0 := not_le.mp h
    constructor
    · rintro ⟨h1, _⟩
      constructor
      · simpa using h1
      · linarith
    · rintro ⟨h1, _⟩
      constructor
      · simpa using h1
      · simpa using hneg.le

/-- C16, as stated, fails: the triangle `(0, 0), (1, 0), (0, 1)` is not empty and has
area `m00 = 1/2`, yet its centroid `(1/3, 1/3)` is converted to the point `(0, 0)`. -/
theorem centroid_origin_counterexample :
    originTriangle ≠ [] ∧ (originLib.moments originTriangle).m00 ≠ 0 ∧
    getCenterOfMass originLib originTriangle = ⟨0, 0⟩ := by
  refine ⟨by decide, by norm_num [originLib], ?_⟩
  have h3 : truncToInt ((1 : ℚ) / 6 / (1 / 2)) = 0 := by
    rw [truncToInt_eq_zero_iff, abs_lt]
    constructor <;> norm_num
  have hm : ¬ ((1 : ℚ) / 2 = 0) := by norm_num
  simp only [getCenterOfMass, originLib, if_neg hm, h3]

/-- C16 (amended): `getCenterOfMass` returns the point `(0, 0)` if and only if
`m00 = 0` or both quotients `m10 / m00` and `m01 / m00` lie strictly between -1 and 1,
where their conversion to `int` is 0. -/
theorem getCenterOfMass_eq_origin_iff (lib : Lib) (contour : List Point) :
    getCenterOfMass lib contour = ⟨0, 0⟩ ↔
      (lib.moments contour).m00 = 0 ∨
      (|(lib.moments contour).m10 / (lib.moments contour).m00| < 1 ∧
       |(lib.moments contour).m01 / (lib.moments contour).m00| < 1) := by
  unfold getCenterOfMass
  dsimp only
  by_cases h : (lib.moments contour).m00 = 0
  · rw [if_pos h]
    exact ⟨fun _ => Or.inl h, fun _ => rfl⟩
  · rw [if_neg h, Point.mk.injEq, truncToInt_eq_zero_iff, truncToInt_eq_zero_iff]
    constructor
    · intro hq
      exact Or.inr hq
    · rintro (h0 | hq)
      · exact absurd h0 h
      · exact hq

/-! ## Selection of the hand candidate -/

/-- A cycle with a frame and contours whose largest area does not exceed 5000 changes
nothing and prints nothing. -/
theorem processFrame_of_maxArea_le (lib : Lib) (p : Pipeline)
    (contours : List (List Point)) (now : Int)
    (hmax : (largestLoop lib contours 0 0 0).2 ≤ 5000) :
    processFrame lib p false contours now = (p, none) := by
  unfold processFrame
  dsimp only
  rw [if_neg (not_lt.mpr hmax)]
  simp

/-- A cycle with a frame and contours whose largest area exceeds 5000 classifies the
selected contour, runs the debounce step and stores the new centroid. -/
theorem processFrame_of_maxArea_gt (lib : Lib) (p : Pipeline)
    (contours : List (List Point)) (now : Int) (hne : contours ≠ [])
    (hmax : (largestLoop lib contours 0 0 0).2 > 5000) :
    processFrame lib p false contours now =
      ({ detector := (sendGesture p.detector now
            (finalGesture
              (detectMotionGesture
                (getCenterOfMass lib (contours.getD (largestLoop lib contours 0 0 0).1 []))
                p.previousCenter)
              (detectGesture lib (contours.getD (largestLoop lib contours 0 0 0).1 [])
                (getCenterOfMass lib
                  (contours.getD (largestLoop lib contours 0 0 0).1 []))))).1,
         previousCenter :=
           getCenterOfMass lib (contours.getD (largestLoop lib contours 0 0 0).1 []) },
       (sendGesture p.detector now
            (finalGesture
              (detectMotionGesture
                (getCenterOfMass lib (contours.getD (largestLoop lib contours 0 0 0).1 []))
                p.previousCenter)
              (detectGesture lib (contours.getD (largestLoop lib contours 0 0 0).1 [])
                (getCenterOfMass lib
                  (contours.getD (largestLoop lib contours 0 0 0).1 []))))).2) := by
  have hemp : contours.isEmpty = false := by
    cases contours with
    | nil => exact absurd rfl hne
    | cons a l => rfl
  unfold processFrame
  dsimp only
  rw [if_pos hmax]
  simp [hemp]

/-- The shoelace area of the rectangle `(100, 100)-(200, 150)`. -/
theorem polygonArea_rectangle : polygonArea (rectangle 100 100 200 150) = 5000 := by
  have h : crossSum (rectangle 100 100 200 150 ++ [⟨100, 100⟩]) = 10000 := by decide
  unfold polygonArea
  simp only [rectangle] at h ⊢
  rw [h]
  norm_num

/-- C14 at the boundary: a single contour of area exactly 5000, the rectangle
`(100, 100)-(200, 150)` or the sample contour measured as 5000, is not accepted by
`processFrame`: the state, previous centroid included, is unchanged and nothing is
printed. `detectGesture` does not reject that area and classifies the sample
contour as ZOOM_IN; at area 6000 the same cycle detects and prints ZOOM_IN. -/
theorem processFrame_rejects_area_5000 :
    polygonLib.contourArea (rectangle 100 100 200 150) = 5000 ∧
    processFrame polygonLib (initialPipeline 0) false [rectangle 100 100 200 150]
      1000000000 = (initialPipeline 0, none) ∧
    processFrame boundaryLib (initialPipeline 0) false [sampleContour] 1000000000
      = (initialPipeline 0, none) ∧
    detectGesture boundaryLib sampleContour ⟨320, 240⟩ = "ZOOM_IN" ∧
    processFrame sampleLib (initialPipeline 0) false [sampleContour] 1000000000
      = (⟨⟨"ZOOM_IN", 1000000000⟩, ⟨320, 240⟩⟩, some "ZOOM_IN") := by
  have hrect : polygonLib.contourArea (rectangle 100 100 200 150) = 5000 :=
    polygonArea_rectangle
  refine ⟨hrect, ?_, ?_, ?_, ?_⟩
  · apply processFrame_of_maxArea_le
    simp only [largestLoop, hrect]
    norm_num
  · apply processFrame_of_maxArea_le
    simp only [largestLoop, boundaryLib]
    norm_num
  · have hcf : countFingers boundaryLib sampleContour = 5 := by
      simp [countFingers, boundaryLib, sampleContour, countFingersStep]
      norm_num
    rw [detectGesture_eq_switch boundaryLib sampleContour ⟨320, 240⟩ (by decide)
      (by norm_num [boundaryLib]), hcf]
    decide
  · have hsel : largestLoop sampleLib [sampleContour] 0 0 0 = (0, 6000) := by
      simp only [largestLoop, sampleLib]
      norm_num
    have hc : getCenterOfMass sampleLib sampleContour = ⟨320, 240⟩ := by
      simp only [getCenterOfMass, sampleLib]
      norm_num [truncToInt]
    have hcf : countFingers sampleLib sampleContour = 5 := by
      simp [countFingers, sampleLib, sampleContour, countFingersStep]
      norm_num
    have hd : detectGesture sampleLib sampleContour ⟨320, 240⟩ = "ZOOM_IN" := by
      rw [detectGesture_eq_switch sampleLib sampleContour ⟨320, 240⟩ (by decide)
        (by norm_num [sampleLib]), hcf]
      decide
    rw [processFrame_of_maxArea_gt sampleLib (initialPipeline 0) [sampleContour]
      1000000000 (by decide) (by rw [hsel]; norm_num)]
    simp only [hsel, List.getD_cons_zero, hc, hd]
    decide

/-- The selection loop, started at index `i` with `largestIdx` and `maxArea`: either
no later contour is larger than `maxArea` and both values are kept, or the result is
the first position `k` of the remaining list whose area is the largest, and that
area exceeds `maxArea`. -/
theorem largestLoop_spec (lib : Lib) (rest : List (List Point)) :
    ∀ (i largestIdx : Nat) (maxArea : ℚ),
      ((largestLoop lib rest i largestIdx maxArea).1 = largestIdx ∧
        (largestLoop lib rest i largestIdx maxArea).2 = maxArea ∧
        ∀ c ∈ rest, lib.contourArea c ≤ maxArea) ∨
      (∃ k, k < rest.length ∧
        (largestLoop lib rest i largestIdx maxArea).1 = i + k ∧
        (largestLoop lib rest i largestIdx maxArea).2 = lib.contourArea (rest.getD k []) ∧
        maxArea < lib.contourArea (rest.getD k []) ∧
        (∀ j, j < k → lib.contourArea (rest.getD j []) < lib.contourArea (rest.getD k [])) ∧
        ∀ c ∈ rest, lib.contourArea c ≤ lib.contourArea (rest.getD k [])) := by
  induction rest with
  | nil =>
    intro i li ma
    left
    exact ⟨rfl, rfl, fun c hc => absurd hc (List.not_mem_nil c)⟩
  | cons c rest ih =>
    intro i li ma
    unfold largestLoop
    dsimp only
    by_cases hgt : lib.contourArea c > ma
    · rw [if_pos hgt]
      right
      rcases ih (i + 1) i (lib.contourArea c) with ⟨h1, h2, h3⟩ | ⟨k, hk, h1, h2, h3, h4, h5⟩
      · refine ⟨0, by simp, by rw [h1]; rfl, by rw [h2]; rfl, hgt, ?_, ?_⟩
        · intro j hj
          exact absurd hj (Nat.not_lt_zero j)
        · intro c' hc'
          rcases List.mem_cons.mp hc' with h | h
          · rw [h]; exact le_refl _
          · exact h3 c' h
      · refine ⟨k + 1, by simp [hk], by rw [h1]; omega, by rw [h2]; rfl, ?_, ?_, ?_⟩
        · rw [List.getD_cons_succ]
          exact lt_trans hgt h3
        · intro j hj
          rw [List.getD_cons_succ]
          cases j with
          | zero => exact h3
          | succ j' =>
            rw [List.getD_cons_succ]
            exact h4 j' (by omega)
        · intro c' hc'
          rw [List.getD_cons_succ]
          rcases List.mem_cons.mp hc' with h | h
          · rw [h]; exact le_of_lt h3
          · exact h5 c' h
    · rw [if_neg hgt]
      have hle : lib.contourArea c ≤ ma := not_lt.mp hgt
      rcases ih (i + 1) li ma with ⟨h1, h2, h3⟩ | ⟨k, hk, h1, h2, h3, h4, h5⟩
      · left
        refine ⟨h1, h2, ?_⟩
        intro c' hc'
        rcases List.mem_cons.mp hc' with h | h
        · rw [h]; exact hle
        · exact h3 c' h
      · right
        refine ⟨k + 1, by simp [hk], by rw [h1]; omega, by rw [h2]; rfl, ?_, ?_, ?_⟩
        · rw [List.getD_cons_succ]
          exact h3
        · intro j hj
          rw [List.getD_cons_succ]
          cases j with
          | zero => exact lt_of_le_of_lt hle h3
          | succ j' =>
            rw [List.getD_cons_succ]
            exact h4 j' (by omega)
        · intro c' hc'
          rw [List.getD_cons_succ]
          rcases List.mem_cons.mp hc' with h | h
          · rw [h]; exact le_of_lt (lt_of_le_of_lt hle h3)
          · exact h5 c' h

/-- C15: for a non-empty list of contours with non-negative areas, the index chosen
by the selection loop of `processFrame` lies in the list, the area of its contour is
at least the area of every contour of the list, and every earlier contour has a
strictly smaller area (it is the first index attaining the maximum). -/
theorem largestLoop_selects_max (lib : Lib) (contours : List (List Point))
    (hne : contours ≠ []) (hnonneg : ∀ c ∈ contours, 0 ≤ lib.contourArea c) :
    (largestLoop lib contours 0 0 0).1 < contours.length ∧
    (∀ c ∈ contours, lib.contourArea c
      ≤ lib.contourArea (contours.getD (largestLoop lib contours 0 0 0).1 [])) ∧
    (∀ j, j < (largestLoop lib contours 0 0 0).1 →
      lib.contourArea (contours.getD j [])
        < lib.contourArea (contours.getD (largestLoop lib contours 0 0 0).1 [])) := by
  rcases largestLoop_spec lib contours 0 0 0 with ⟨h1, _, h3⟩ | ⟨k, hk, h1, _, _, h4, h5⟩
  · rw [h1]
    cases contours with
    | nil => exact absurd rfl hne
    | cons c rest =>
      have hc0 : lib.contourArea c = 0 :=
        le_antisymm (h3 c (List.mem_cons_self _ _)) (hnonneg c (List.mem_cons_self _ _))
      refine ⟨by simp, ?_, ?_⟩
      · intro c' hc'
        rw [List.getD_cons_zero, hc0]
        exact h3 c' hc'
      · intro j hj
        exact absurd hj (Nat.not_lt_zero j)
  · rw [h1, Nat.zero_add]
    exact ⟨hk, h5, h4⟩

/-- The shoelace area is never negative. -/
theorem polygonArea_nonneg (contour : List Point) : 0 ≤ polygonArea contour := by
  unfold polygonArea
  cases contour with
  | nil => exact le_refl _
  | cons p rest => exact div_nonneg (abs_nonneg _) (by norm_num)

/-- Witness for `largestLoop_selects_max`: among a square of area 100 and two
rectangles of area 5000 the loop selects index 1, the first of the two largest. -/
theorem largestLoop_selects_max_witness :
    (largestLoop polygonLib threeContours 0 0 0).1 = 1 ∧
    (largestLoop polygonLib threeContours 0 0 0).1 < threeContours.length ∧
    (∀ c ∈ threeContours, polygonLib.contourArea c
      ≤ polygonLib.contourArea
          (threeContours.getD (largestLoop polygonLib threeContours 0 0 0).1 [])) ∧
    (∀ j, j < (largestLoop polygonLib threeContours 0 0 0).1 →
      polygonLib.contourArea (threeContours.getD j [])
        < polygonLib.contourArea
            (threeContours.getD (largestLoop polygonLib threeContours 0 0 0).1 [])) :=
  have h0 : polygonArea (rectangle 0 0 10 10) = 100 := by
    have h : crossSum (rectangle 0 0 10 10 ++ [⟨0, 0⟩]) = 200 := by decide
    unfold polygonArea
    simp only [rectangle] at h ⊢
    rw [h]
    norm_num
  have h2 : polygonArea (rectangle 300 300 350 400) = 5000 := by
    have h : crossSum (rectangle 300 300 350 400 ++ [⟨300, 300⟩]) = 10000 := by decide
    unfold polygonArea
    simp only [rectangle] at h ⊢
    rw [h]
    norm_num
  have hsel : (largestLoop polygonLib threeContours 0 0 0).1 = 1 := by
    simp only [largestLoop, threeContours, polygonLib, h0, polygonArea_rectangle, h2]
    norm_num
  ⟨hsel, largestLoop_selects_max polygonLib threeContours (by decide)
    (fun c _ => polygonArea_nonneg c)⟩

/-! ## The scenario of the specification -/

/-- A cycle less than 501 ms after the stored time changes nothing and prints
nothing, whatever its label. -/
theorem sendGesture_of_early (d : Detector) (now : Int) (g : String)
    (h : now - d.lastGestureTime < 501 * ticksPerMs) : sendGesture d now g = (d, none) := by
  have hle : durationCastMs (now - d.lastGestureTime) ≤ GESTURE_COOLDOWN_MS := by
    by_contra hcon
    have := (durationCastMs_gt_cooldown _).mp (not_le.mp hcon)
    omega
  have hst := sendGesture_eq_of_early d now g hle
  have hout : (sendGesture d now g).2 = none := by
    cases ho : (sendGesture d now g).2 with
    | none => rfl
    | some e =>
      have hc := (sendGesture_some_iff d now g e).mp ho
      exact absurd hc.2.2.2 (not_lt.mpr hle)
  exact Prod.ext hst hout

/-- A cycle whose label is the stored one changes nothing and prints nothing. -/
theorem sendGesture_of_same (d : Detector) (now : Int) (g : String)
    (h : g = d.lastGesture) : sendGesture d now g = (d, none) := by
  have hfalse : (shouldSendGesture d now g).1 = false := by
    cases hb : (shouldSendGesture d now g).1 with
    | false => rfl
    | true => exact absurd h ((shouldSendGesture_true_iff d now g).mp hb).1
  have hst : (sendGesture d now g).1 = d := by
    rw [sendGesture_state, shouldSendGesture_state_of_false d now g hfalse]
  have hout : (sendGesture d now g).2 = none := by
    cases ho : (sendGesture d now g).2 with
    | none => rfl
    | some e =>
      have hc := (sendGesture_some_iff d now g e).mp ho
      exact absurd h hc.2.2.1
  exact Prod.ext hst hout

/-- A cycle with a new label other than NONE, at least 501 ms after the stored time,
prints the label and stores it with the clock reading. -/
theorem sendGesture_of_accept (d : Detector) (now : Int) (g : String)
    (hne : g ≠ "NONE") (hnew : g ≠ d.lastGesture)
    (h : 501 * ticksPerMs ≤ now - d.lastGestureTime) :
    sendGesture d now g = ({ lastGesture := g, lastGestureTime := now }, some g) := by
  have hgt := (durationCastMs_gt_cooldown (now - d.lastGestureTime)).mpr h
  have hsome := (sendGesture_some_iff d now g g).mpr ⟨rfl, hne, hnew, hgt⟩
  exact Prod.ext (sendGesture_state_of_some d now g g hsome) hsome

/-- Cycles that all come less than 501 ms after the stored time print nothing and
leave the state alone. -/
theorem debounce_early_cycles (mid : List (String × Int)) (d : Detector)
    (h : ∀ x ∈ mid, x.2 - d.lastGestureTime < 501 * ticksPerMs) :
    debounceOutputs d mid = List.replicate mid.length none ∧ debounceState d mid = d := by
  induction mid with
  | nil => exact ⟨rfl, rfl⟩
  | cons a rest ih =>
    obtain ⟨g, now⟩ := a
    have hstep := sendGesture_of_early d now g (h (g, now) (List.mem_cons_self _ _))
    have hrest := ih (fun x hx => h x (List.mem_cons_of_mem _ hx))
    rw [debounceOutputs, debounceState, hstep]
    simp only
    rw [hrest.1, hrest.2, List.length_cons, List.replicate_succ]
    exact ⟨rfl, rfl⟩

/-- C11, as stated, fails. A detector constructed at time 0 prints ZOOM_IN at 520 ms,
not at 50 ms. A detector constructed 500 ms earlier prints ZOOM_IN at 50 ms only, but
ROTATE_LEFT fed in the next cycle at 550 ms, where `T - 50 = 500`, is not printed. -/
theorem scenario_counterexample :
    debounceOutputs (initialDetector 0) scenarioRun
      = [none, none, some "ZOOM_IN", none] ∧
    debounceOutputs (initialDetector (-500000000)) scenarioRun
      = [none, some "ZOOM_IN", none, none] ∧
    (550000000 : Int) - 50000000 ≥ 500 * ticksPerMs ∧
    debounceOutputs (initialDetector (-500000000))
        (scenarioRun ++ [("ROTATE_LEFT", 550000000)])
      = [none, some "ZOOM_IN", none, none, none] := by
  decide

/-- C11 (amended): let the detector be constructed more than 450 ms and at most
500 ms (in whole milliseconds) before time 0, so that NONE at 0 ms is inside the
initial cooldown and ZOOM_IN at 50 ms is past it. Then the four cycles of the
scenario print exactly one line, ZOOM_IN at 50 ms, ROTATE_LEFT at 540 ms being
suppressed; whatever is fed in later cycles less than 501 ms after 50 ms prints
nothing; and ROTATE_LEFT fed at the first cycle time `T` with `T - 50 ms ≥ 501 ms`
is printed. -/
theorem scenario_emissions (t0 : Int) (mid : List (String × Int)) (T : Int)
    (hlo : -501 * ticksPerMs < t0) (hhi : t0 ≤ -451 * ticksPerMs)
    (hmid : ∀ x ∈ mid, x.2 - 50 * ticksPerMs < 501 * ticksPerMs)
    (hT : 501 * ticksPerMs ≤ T - 50 * ticksPerMs) :
    debounceOutputs (initialDetector t0) scenarioRun
      = [none, some "ZOOM_IN", none, none] ∧
    debounceOutputs (initialDetector t0) (scenarioRun ++ (mid ++ [("ROTATE_LEFT", T)]))
      = [none, some "ZOOM_IN", none, none]
          ++ (List.replicate mid.length none ++ [some "ROTATE_LEFT"]) := by
  unfold ticksPerMs at hlo hhi hmid hT
  have h1 : sendGesture (initialDetector t0) 0 "NONE" = (initialDetector t0, none) :=
    sendGesture_of_early _ _ _ (by simp only [initialDetector, ticksPerMs]; omega)
  have h2 : sendGesture (initialDetector t0) 50000000 "ZOOM_IN"
      = (⟨"ZOOM_IN", 50000000⟩, some "ZOOM_IN") :=
    sendGesture_of_accept _ _ _ (by decide) (by simp [initialDetector])
      (by simp only [initialDetector, ticksPerMs]; omega)
  have h3 : sendGesture ⟨"ZOOM_IN", 50000000⟩ 520000000 "ZOOM_IN"
      = (⟨"ZOOM_IN", 50000000⟩, none) :=
    sendGesture_of_same _ _ _ rfl
  have h4 : sendGesture ⟨"ZOOM_IN", 50000000⟩ 540000000 "ROTATE_LEFT"
      = (⟨"ZOOM_IN", 50000000⟩, none) :=
    sendGesture_of_early _ _ _ (by decide)
  have hm := debounce_early_cycles mid ⟨"ZOOM_IN", 50000000⟩
    (by
      intro x hx
      have := hmid x hx
      simp only [ticksPerMs]
      omega)
  have h5 : sendGesture ⟨"ZOOM_IN", 50000000⟩ T "ROTATE_LEFT"
      = (⟨"ROTATE_LEFT", T⟩, some "ROTATE_LEFT") :=
    sendGesture_of_accept _ _ _ (by decide) (by decide)
      (by simp only [ticksPerMs]; omega)
  constructor
  · simp only [scenarioRun, debounceOutputs, h1, h2, h3, h4]
  · simp only [scenarioRun, List.cons_append, List.nil_append, debounceOutputs, h1, h2,
      h3, h4]
    simp only [List.append_eq, List.nil_append]
    rw [debounceOutputs_append, hm.1, hm.2]
    simp only [debounceOutputs, h5]

/-- Witness for `scenario_emissions`: constructed at -500 ms, with NONE fed at 545 ms
and ROTATE_LEFT fed again at 551 ms. -/
theorem scenario_emissions_witness :
    debounceOutputs (initialDetector (-500000000)) scenarioRun
      = [none, some "ZOOM_IN", none, none] ∧
    debounceOutputs (initialDetector (-500000000))
        (scenarioRun ++ ([("NONE", 545000000)] ++ [("ROTATE_LEFT", 551000000)]))
      = [none, some "ZOOM_IN", none, none]
          ++ (List.replicate [(("NONE", 545000000) : String × Int)].length none
            ++ [some "ROTATE_LEFT"]) :=
  scenario_emissions (-500000000) [("NONE", 545000000)] 551000000
    (by decide) (by decide) (by decide) (by decide)

/-! ## The angle test -/

/-- The law-of-cosines quotient of the triangle with start `(100, 1)`, end `(-1, 99)`
and far point `(0, 0)`: the side lengths are the roots of 10001, 9802 and 19805. -/
theorem obtuse_quotient :
    ((Real.sqrt 10001 * Real.sqrt 10001 + Real.sqrt 9802 * Real.sqrt 9802
        - Real.sqrt 19805 * Real.sqrt 19805) / (2 * Real.sqrt 10001 * Real.sqrt 9802))
      = -(1 / (Real.sqrt 10001 * Real.sqrt 9802)) := by
  rw [Real.mul_self_sqrt (by norm_num), Real.mul_self_sqrt (by norm_num),
    Real.mul_self_sqrt (by norm_num)]
  have hb : (0 : ℝ) < Real.sqrt 10001 := Real.sqrt_pos.mpr (by norm_num)
  have hc : (0 : ℝ) < Real.sqrt 9802 := Real.sqrt_pos.mpr (by norm_num)
  field_simp
  ring

/-- The product of the two sides at the far point is at least 9900. -/
theorem obtuse_sides_ge : (9900 : ℝ) ≤ Real.sqrt 10001 * Real.sqrt 9802 := by
  have hb : (100 : ℝ) ≤ Real.sqrt 10001 := by
    apply Real.le_sqrt_of_sq_le
    norm_num
  have hc : (99 : ℝ) ≤ Real.sqrt 9802 := by
    apply Real.le_sqrt_of_sq_le
    norm_num
  nlinarith

/-- The angle of that triangle at the far point exceeds a right angle by at most
`1 / 9000` radians. -/
theorem obtuse_arccos_le :
    Real.arccos (-(1 / (Real.sqrt 10001 * Real.sqrt 9802))) ≤ Real.pi / 2 + 1 / 9000 := by
  have hp := obtuse_sides_ge
  have hpos : (0 : ℝ) < Real.sqrt 10001 * Real.sqrt 9802 := by linarith
  have hy0 : (0 : ℝ) < 1 / (Real.sqrt 10001 * Real.sqrt 9802) := by positivity
  have hy1 : 1 / (Real.sqrt 10001 * Real.sqrt 9802) ≤ 1 / 9900 :=
    one_div_le_one_div_of_le (by norm_num) hp
  rw [Real.arccos_neg, Real.arccos_eq_pi_div_two_sub_arcsin]
  have hpi := Real.pi_gt_three
  have hsin : (1 : ℝ) / 9000 - (1 / 9000) ^ 3 / 4 < Real.sin (1 / 9000) :=
    Real.sin_gt_sub_cube (by norm_num) (by norm_num)
  have harc : Real.arcsin (1 / (Real.sqrt 10001 * Real.sqrt 9802)) ≤ 1 / 9000 := by
    rw [Real.arcsin_le_iff_le_sin]
    · have : (1 : ℝ) / 9900 ≤ 1 / 9000 - (1 / 9000) ^ 3 / 4 := by norm_num
      linarith
    · constructor <;> linarith
    · constructor <;> linarith
  linarith

/-- The values behind the outcome that `obtuseLib` reports, before any rounding: at
the triangle with sides `sqrt 19805`, `sqrt 10001`, `sqrt 9802` the angle at the far
point is larger than a right angle, and the quantity that line 87 compares with 90 is
below 89.998. The double evaluation stays within a rounding error far smaller than
the remaining gap of 0.002. -/
theorem obtuse_value_before_rounding :
    Real.pi / 2 < Real.arccos
      ((Real.sqrt 10001 * Real.sqrt 10001 + Real.sqrt 9802 * Real.sqrt 9802
        - Real.sqrt 19805 * Real.sqrt 19805) / (2 * Real.sqrt 10001 * Real.sqrt 9802)) ∧
    Real.arccos
      ((Real.sqrt 10001 * Real.sqrt 10001 + Real.sqrt 9802 * Real.sqrt 9802
        - Real.sqrt 19805 * Real.sqrt 19805) / (2 * Real.sqrt 10001 * Real.sqrt 9802))
      * 57.29 ≤ 89.998 := by
  rw [obtuse_quotient]
  have hp := obtuse_sides_ge
  have hle := obtuse_arccos_le
  have hpi := Real.pi_lt_d4
  constructor
  · by_contra hcon
    have h2 := (Real.arccos_le_pi_div_two).mp (not_lt.mp hcon)
    have hy0 : (0 : ℝ) < 1 / (Real.sqrt 10001 * Real.sqrt 9802) := by
      have : (0 : ℝ) < Real.sqrt 10001 * Real.sqrt 9802 := by linarith
      positivity
    linarith
  · linarith

end GestureDetector
